import Mathlib

/-!
Verification of the playground-organizer repository.

Shallow embedding of the analysis/classification/planning/execution engine of
the repository.  Two implementations of the engine exist in the source tree and
are both modelled where the claims cite both:

* the backend package `src/backend/src/playground_organizer/playground_organizer.py`
  (called "backend" below), and
* the standalone script `src/playground-organizer.py` (called "standalone" below).

Filesystem state is modelled as a partial map from path strings to nodes
(real file, real directory, or symbolic link).  Timestamps and day counts are
modelled as rationals (the Python floats never exercise rounding behaviour in
the claims considered here).  Machine integers do not overflow in any modelled
computation, so sizes are plain naturals.
-/

namespace Playground

/-- A filesystem node: a regular file, a directory, or a symbolic link
(with the link text it points at). -/
inductive Node
  | realFile
  | realDir
  | symlink (target : String)
deriving DecidableEq, Repr

/-- A flat view of the filesystem: each path string maps to at most one node. -/
abbrev Fs := String → Option Node

/-- `Path.is_symlink()`: true when the path itself is a symbolic link
(whether or not its target exists). -/
def pathIsSymlink (fs : Fs) (p : String) : Bool :=
  match fs p with
  | some (.symlink _) => true
  | _ => false

/-- `Path.exists()`: a real file or directory exists; a symlink exists only if
its target does (one level of resolution; the outcomes modelled below never
depend on deeper chains). -/
def pathExists (fs : Fs) (p : String) : Bool :=
  match fs p with
  | none => false
  | some (.symlink t) => (fs t).isSome
  | some _ => true

/-- Whether a node is a symbolic link. -/
def Node.isSymlinkB : Node → Bool
  | .symlink _ => true
  | _ => false

/-- `PlaygroundOrganizer.create_symlink` (backend lines 197-211, identical in
the standalone script's themed execution path): if the target exists or is a
symlink, a symlink target is unlinked and replaced, while a real file or
directory makes the call return `false` without touching anything; otherwise
the parent directory is created (parent creation does not affect the source or
target nodes and is omitted from the flat path map) and the link is made. -/
def createSymlink (fs : Fs) (source target : String) : Fs × Bool :=
  if pathExists fs target || pathIsSymlink fs target then
    if pathIsSymlink fs target then
      (fun p => if p = target then some (.symlink source) else fs p, true)
    else
      (fs, false)
  else
    (fun p => if p = target then some (.symlink source) else fs p, true)

/-- Outcome of one move in `organize_files`' execution loop. -/
inductive MoveOutcome
  | moved
  | skippedAlreadyExists
deriving DecidableEq, Repr

/-- One iteration of the execution loop of `organize_files`
(backend lines 348-356): if the destination exists the move is skipped with an
"already exists" warning, otherwise `shutil.move` relocates the node. -/
def moveStep (fs : Fs) (src dst : String) : Fs × MoveOutcome :=
  if pathExists fs dst then
    (fs, .skippedAlreadyExists)
  else
    (fun p => if p = dst then fs src else if p = src then none else fs p, .moved)

/-- A path holding a real (non-symlink) node is never a symlink. -/
lemma pathIsSymlink_of_real (fs : Fs) (target : String) (n : Node)
    (hn : fs target = some n) (hns : n.isSymlinkB = false) :
    pathIsSymlink fs target = false := by
  unfold pathIsSymlink
  rw [hn]
  cases n with
  | realFile => rfl
  | realDir => rfl
  | symlink t => simp [Node.isSymlinkB] at hns

/-- A path holding a real (non-symlink) node exists. -/
lemma pathExists_of_real (fs : Fs) (target : String) (n : Node)
    (hn : fs target = some n) (hns : n.isSymlinkB = false) :
    pathExists fs target = true := by
  unfold pathExists
  rw [hn]
  cases n with
  | realFile => rfl
  | realDir => rfl
  | symlink t => simp [Node.isSymlinkB] at hns

/-- `create_symlink` against a real (non-symlink) destination returns false
and leaves the filesystem untouched. -/
lemma createSymlink_real_target (fs : Fs) (source target : String) (n : Node)
    (hn : fs target = some n) (hns : n.isSymlinkB = false) :
    createSymlink fs source target = (fs, false) := by
  unfold createSymlink
  rw [pathExists_of_real fs target n hn hns,
      pathIsSymlink_of_real fs target n hn hns]
  rfl

/-- C1: For every planned symlink or move action whose destination path exists
as a real (non-symlink) file or directory, execution never overwrites the
destination: the symlink-creation step may replace the destination only when it
is an existing symlink, and when the destination is a real node the action is
skipped (the move loop reports it as already-existing) and the whole filesystem
state, in particular the source and the destination, is left unchanged. -/
theorem c1_no_overwrite_of_real_destination (fs : Fs) (source target : String)
    (n : Node) (hn : fs target = some n) (hns : n.isSymlinkB = false) :
    createSymlink fs source target = (fs, false) ∧
    moveStep fs source target = (fs, .skippedAlreadyExists) := by
  refine ⟨createSymlink_real_target fs source target n hn hns, ?_⟩
  unfold moveStep
  rw [pathExists_of_real fs target n hn hns]
  rfl

/-- Concrete filesystem used to witness C1: a source file and a real directory
sitting at the planned destination. -/
def c1Fs : Fs := fun p =>
  if p = "pg/current/proj" then some .realDir
  else if p = "pg/proj" then some .realFile
  else none

/-- Witness for C1 at a concrete filesystem. -/
theorem c1_witness :
    createSymlink c1Fs "pg/proj" "pg/current/proj" = (c1Fs, false) ∧
    moveStep c1Fs "pg/proj" "pg/current/proj" = (c1Fs, .skippedAlreadyExists) :=
  c1_no_overwrite_of_real_destination c1Fs "pg/proj" "pg/current/proj"
    .realDir (by simp [c1Fs]) rfl

/-! ## Time classification -/

/-- The three day thresholds held by the organizer (backend lines 32-37; the
values come from `int(os.getenv(...))`, hence integers). -/
structure Thresholds where
  current : Int
  recent : Int
  old : Int
deriving DecidableEq, Repr

/-- One of the four time buckets of the analysis. -/
inductive TimeBucket
  | current
  | recent
  | old
  | archive
deriving DecidableEq, Repr

/-- Age in days: `(now - last_used) / (24 * 3600)`
(backend line 262, standalone works with the same quantity in seconds). -/
def ageDays (now lastUsed : ℚ) : ℚ :=
  (now - lastUsed) / (24 * 3600)

/-- The categorization chain of `analyze_access_patterns` (backend
lines 267-279) and of the standalone `_classify_by_time` (lines 91-103). -/
def classifyTime (th : Thresholds) (d : ℚ) : TimeBucket :=
  if d ≤ (th.current : ℚ) then .current
  else if d ≤ (th.recent : ℚ) then .recent
  else if d ≤ (th.old : ℚ) then .old
  else .archive

/-- C2: with thresholds current < recent < old, the time classification of an
age in days returns current exactly on ages at most the current threshold,
recent on the half-open interval up to the recent threshold, old up to the old
threshold and archive beyond; in particular an age exactly at the current
threshold is current and an age 0.001 days past it is recent. -/
theorem c2_time_bucket_boundaries (th : Thresholds)
    (h1 : th.current < th.recent) (h2 : th.recent < th.old)
    (now lastUsed : ℚ) :
    (classifyTime th (ageDays now lastUsed) = .current ↔
      ageDays now lastUsed ≤ th.current) ∧
    (classifyTime th (ageDays now lastUsed) = .recent ↔
      (th.current : ℚ) < ageDays now lastUsed ∧ ageDays now lastUsed ≤ th.recent) ∧
    (classifyTime th (ageDays now lastUsed) = .old ↔
      (th.recent : ℚ) < ageDays now lastUsed ∧ ageDays now lastUsed ≤ th.old) ∧
    (classifyTime th (ageDays now lastUsed) = .archive ↔
      (th.old : ℚ) < ageDays now lastUsed) ∧
    classifyTime th (th.current : ℚ) = .current ∧
    classifyTime th ((th.current : ℚ) + 1 / 1000) = .recent := by
  have hq1 : (th.current : ℚ) < th.recent := by exact_mod_cast h1
  have hq2 : (th.recent : ℚ) < th.old := by exact_mod_cast h2
  set d := ageDays now lastUsed with hd
  refine ⟨?_, ?_, ?_, ?_, ?_, ?_⟩
  · unfold classifyTime
    split
    · simp_all
    · split
      · next hc hr => simp only [reduceCtorEq, false_iff]; exact hc
      · split
        · next hc hr ho => simp only [reduceCtorEq, false_iff]; exact hc
        · next hc hr ho => simp only [reduceCtorEq, false_iff]; exact hc
  · unfold classifyTime
    split
    · next hc =>
      simp only [reduceCtorEq, false_iff]
      intro hcontra
      exact absurd hc (not_le.mpr hcontra.1)
    · next hc =>
      split
      · next hr => simp only [true_iff]; exact ⟨not_le.mp hc, hr⟩
      · next hr =>
        split
        · simp only [reduceCtorEq, false_iff]; intro hcontra; exact hr hcontra.2
        · simp only [reduceCtorEq, false_iff]; intro hcontra; exact hr hcontra.2
  · unfold classifyTime
    split
    · next hc =>
      simp only [reduceCtorEq, false_iff]
      intro hcontra
      exact absurd (hc.trans hq1.le) (not_le.mpr hcontra.1)
    · next hc =>
      split
      · next hr =>
        simp only [reduceCtorEq, false_iff]
        intro hcontra
        exact absurd hr (not_le.mpr hcontra.1)
      · next hr =>
        split
        · next ho => simp only [true_iff]; exact ⟨not_le.mp hr, ho⟩
        · next ho => simp only [reduceCtorEq, false_iff]; intro hcontra; exact ho hcontra.2
  · unfold classifyTime
    split
    · next hc =>
      simp only [reduceCtorEq, false_iff]
      exact not_lt.mpr (hc.trans (hq1.le.trans hq2.le))
    · next hc =>
      split
      · next hr =>
        simp only [reduceCtorEq, false_iff]
        exact not_lt.mpr (hr.trans hq2.le)
      · next hr =>
        split
        · next ho => simp only [reduceCtorEq, false_iff]; exact not_lt.mpr ho
        · next ho => simp only [true_iff]; exact not_le.mp ho
  · unfold classifyTime
    simp
  · unfold classifyTime
    have hnc : ¬ ((th.current : ℚ) + 1 / 1000 ≤ (th.current : ℚ)) := by
      intro h
      linarith
    have hr : (th.current : ℚ) + 1 / 1000 ≤ (th.recent : ℚ) := by
      have : (th.current : ℚ) + 1 ≤ (th.recent : ℚ) := by
        exact_mod_cast h1
      linarith
    rw [if_neg hnc, if_pos hr]

/-- Witness for C2 at the default thresholds 30/180/365 and a concrete age. -/
theorem c2_witness :
    (classifyTime ⟨30, 180, 365⟩ (ageDays 86400 0) = .current ↔
      ageDays 86400 0 ≤ (30 : Int)) ∧
    classifyTime ⟨30, 180, 365⟩ ((30 : Int) : ℚ) = .current ∧
    classifyTime ⟨30, 180, 365⟩ (((30 : Int) : ℚ) + 1 / 1000) = .recent := by
  have h := c2_time_bucket_boundaries ⟨30, 180, 365⟩ (by decide) (by decide) 86400 0
  exact ⟨h.1, h.2.2.2.2.1, h.2.2.2.2.2⟩

/-! ## Theme classification -/

/-- Python's `str.lower()` (on the ASCII names the organizer deals with,
Python and Unicode simple lowercasing agree), computed characterwise so that it
evaluates inside the kernel. -/
def strLower (s : String) : String :=
  ⟨s.data.map Char.toLower⟩

/-- Python's `needle in hay` substring test on character lists. -/
def charsContain (needle : List Char) : List Char → Bool
  | [] => needle.isEmpty
  | c :: rest => needle.isPrefixOf (c :: rest) || charsContain needle rest

/-- Python's `needle in hay` substring test on strings. -/
def strContains (needle hay : String) : Bool :=
  charsContain needle.data hay.data

/-- An ordered theme table: theme name paired with its keyword list.  Python
dicts preserve insertion order, so the configured mapping is an ordered list of
pairs. -/
abbrev ThemeTable := List (String × List String)

/-- Whether any keyword of a theme occurs in the (already lowercased) name. -/
def themeMatches (keywords : List String) (nameLower : String) : Bool :=
  keywords.any (fun kw => strContains kw nameLower)

/-- The keyword scan shared by the backend `detect_theme` name-based part
(lines 188-195) and the standalone `_classify_by_theme` (lines 105-116):
iterate the table in order, skip the "misc" entry, return the first theme one
of whose keywords is a substring of the lowercased name, else "misc". -/
def detectThemeFromName (table : ThemeTable) (nameLower : String) : String :=
  match table with
  | [] => "misc"
  | (theme, keywords) :: rest =>
    if theme = "misc" then detectThemeFromName rest nameLower
    else if themeMatches keywords nameLower then theme
    else detectThemeFromName rest nameLower

/-- Name-based theme classification: lowercase the name and scan the table. -/
def classifyTheme (table : ThemeTable) (name : String) : String :=
  detectThemeFromName table (strLower name)

/-- Keywords of the default "ai" theme (backend line 84). -/
def aiKeywords : List String :=
  ["gpt", "llm", "claude", "openai", "anthropic", "ml", "ai-", "neural",
   "model", "transformer"]

/-- Keywords of the default "development" theme (backend line 87). -/
def developmentKeywords : List String :=
  ["dev", "code", "programming", "api", "sdk", "github", "git"]

/-- The default theme mapping table of the backend (lines 83-93), in its
defined order. -/
def defaultThemeMappings : ThemeTable :=
  [("ai", aiKeywords),
   ("productivity",
    ["todo", "task", "calendar", "notes", "productivity", "planner", "organize"]),
   ("stocks",
    ["stock", "trading", "finance", "market", "ticker", "portfolio", "investment"]),
   ("development", developmentKeywords),
   ("data", ["data", "database", "sql", "analytics", "etl", "pipeline"]),
   ("media", ["video", "audio", "image", "media", "photo", "music", "movie"]),
   ("tools", ["tool", "utility", "helper", "script", "automation"]),
   ("learning", ["course", "tutorial", "learn", "education", "study", "book"]),
   ("misc", [])]

/-- C3: theme classification lowercases the name and scans the themes in their
defined order, skipping "misc": when no non-misc theme has a matching keyword
the result is "misc"; the first non-misc theme with a keyword occurring in the
lowercased name wins; and since "ai" is the first theme of the default table
(in particular it precedes "development"), a name containing both an ai keyword
and a development keyword is always classified "ai". -/
theorem c3_theme_first_match_wins :
    (∀ (table : ThemeTable) (name : String),
      (∀ p ∈ table, p.1 = "misc" ∨ themeMatches p.2 (strLower name) = false) →
      classifyTheme table name = "misc") ∧
    (∀ (pre : ThemeTable) (t : String) (kws : List String) (post : ThemeTable)
        (name : String),
      t ≠ "misc" →
      (∀ p ∈ pre, p.1 = "misc" ∨ themeMatches p.2 (strLower name) = false) →
      themeMatches kws (strLower name) = true →
      classifyTheme (pre ++ (t, kws) :: post) name = t) ∧
    (∀ name : String,
      themeMatches aiKeywords (strLower name) = true →
      themeMatches developmentKeywords (strLower name) = true →
      classifyTheme defaultThemeMappings name = "ai") := by
  have hmisc : ∀ (table : ThemeTable) (nl : String),
      (∀ p ∈ table, p.1 = "misc" ∨ themeMatches p.2 nl = false) →
      detectThemeFromName table nl = "misc" := by
    intro table
    induction table with
    | nil => intro nl _; rfl
    | cons hd tl ih =>
      intro nl h
      have hhd := h hd (List.mem_cons_self hd tl)
      obtain ⟨theme, keywords⟩ := hd
      unfold detectThemeFromName
      rcases hhd with hm | hnom
      · simp only at hm
        rw [if_pos hm]
        exact ih nl (fun p hp => h p (List.mem_cons_of_mem _ hp))
      · by_cases hm : theme = "misc"
        · rw [if_pos hm]
          exact ih nl (fun p hp => h p (List.mem_cons_of_mem _ hp))
        · rw [if_neg hm]
          simp only at hnom
          rw [hnom]
          simp only [Bool.false_eq_true, if_false]
          exact ih nl (fun p hp => h p (List.mem_cons_of_mem _ hp))
  have hfirst : ∀ (pre : ThemeTable) (t : String) (kws : List String)
      (post : ThemeTable) (nl : String),
      t ≠ "misc" →
      (∀ p ∈ pre, p.1 = "misc" ∨ themeMatches p.2 nl = false) →
      themeMatches kws nl = true →
      detectThemeFromName (pre ++ (t, kws) :: post) nl = t := by
    intro pre
    induction pre with
    | nil =>
      intro t kws post nl ht _ hmatch
      unfold detectThemeFromName
      rw [List.nil_append]
      simp only
      rw [if_neg ht, if_pos hmatch]
    | cons hd tl ih =>
      intro t kws post nl ht h hmatch
      have hhd := h hd (List.mem_cons_self hd tl)
      obtain ⟨theme, keywords⟩ := hd
      rw [List.cons_append]
      unfold detectThemeFromName
      rcases hhd with hm | hnom
      · simp only at hm
        rw [if_pos hm]
        exact ih t kws post nl ht (fun p hp => h p (List.mem_cons_of_mem _ hp)) hmatch
      · by_cases hm : theme = "misc"
        · rw [if_pos hm]
          exact ih t kws post nl ht (fun p hp => h p (List.mem_cons_of_mem _ hp)) hmatch
        · rw [if_neg hm]
          simp only at hnom
          rw [hnom]
          simp only [Bool.false_eq_true, if_false]
          exact ih t kws post nl ht (fun p hp => h p (List.mem_cons_of_mem _ hp)) hmatch
  refine ⟨fun table name h => hmisc table (strLower name) h,
          fun pre t kws post name ht h hm => hfirst pre t kws post (strLower name) ht h hm,
          fun name hai _ => ?_⟩
  have := hfirst [] "ai" aiKeywords (defaultThemeMappings.drop 1) (strLower name)
    (by decide) (by intro p hp; cases hp) hai
  simpa [classifyTheme, defaultThemeMappings] using this

/-- Witness for C3: the name "gpt-dev-tool" contains the ai keyword "gpt" and
the development keyword "dev", and is classified "ai" by the default table. -/
theorem c3_witness :
    classifyTheme defaultThemeMappings "gpt-dev-tool" = "ai" :=
  c3_theme_first_match_wins.2.2 "gpt-dev-tool" (by decide) (by decide)

/-! ## Directory size estimation -/

/-- What one entry of `path.iterdir()` turns out to be: a file, a directory,
or neither (e.g. a broken symlink: `is_file()` and `is_dir()` both false). -/
inductive ChildKind
  | file
  | dir
  | other
deriving DecidableEq, Repr

/-- The counting loop of `_estimate_directory_size` (backend lines 57-68):
each child bumps the file or directory counter, and the loop stops as soon as
the combined count exceeds 20 (so the 21st counted child is still counted). -/
def countChildren : List ChildKind → Nat → Nat → Nat × Nat
  | [], fc, dc => (fc, dc)
  | .file :: rest, fc, dc =>
    if fc + 1 + dc > 20 then (fc + 1, dc) else countChildren rest (fc + 1) dc
  | .dir :: rest, fc, dc =>
    if fc + (dc + 1) > 20 then (fc, dc + 1) else countChildren rest fc (dc + 1)
  | .other :: rest, fc, dc =>
    if fc + dc > 20 then (fc, dc) else countChildren rest fc dc

/-- `any(pattern in name for pattern in pats)` on the lowercased name. -/
def nameMatchesAny (pats : List String) (nameLower : String) : Bool :=
  pats.any (fun p => strContains p nameLower)

/-- How the scan of a directory's immediate children ended. -/
inductive DirScan
  | ok (children : List ChildKind)
  | failedAfter (seen : List ChildKind)
  | outerError
deriving DecidableEq, Repr

/-- The children a scan managed to enumerate: an `OSError`/`PermissionError`
during iteration (backend lines 69-70) is swallowed and the counts gathered so
far are kept. -/
def DirScan.seenChildren : DirScan → List ChildKind
  | .ok c => c
  | .failedAfter c => c
  | .outerError => []

/-- `PlaygroundOrganizer._estimate_directory_size` (backend lines 41-78):
fixed size constants for name patterns, otherwise the bounded child-count
formula floored at 1MB; any unexpected exception outside the child scan
(backend lines 76-78) yields the fixed 10MB default. -/
def estimateDirectorySize (name : String) (scan : DirScan) : Nat :=
  match scan with
  | .outerError => 10 * 1024 * 1024
  | s =>
    if nameMatchesAny ["node_modules", "venv", "env", ".git"] (strLower name) then
      200 * 1024 * 1024
    else if nameMatchesAny ["__pycache__", ".cache", "build", "dist"] (strLower name) then
      50 * 1024 * 1024
    else if nameMatchesAny ["models", "hugging_face", "datasets"] (strLower name) then
      500 * 1024 * 1024
    else if nameMatchesAny ["test", "example", "demo"] (strLower name) then
      5 * 1024 * 1024
    else
      max ((countChildren s.seenChildren 0 0).1 * 100 * 1024 +
           (countChildren s.seenChildren 0 0).2 * 10 * 1024 * 1024) (1024 * 1024)

/-- Whether the directory name falls into one of the four fixed pattern
buckets of the estimator. -/
def nameHasSizePattern (name : String) : Bool :=
  let nameLower := strLower name
  nameMatchesAny ["node_modules", "venv", "env", ".git"] nameLower ||
  nameMatchesAny ["__pycache__", ".cache", "build", "dist"] nameLower ||
  nameMatchesAny ["models", "hugging_face", "datasets"] nameLower ||
  nameMatchesAny ["test", "example", "demo"] nameLower

/-- C4 counterexample: the estimate is NOT a function of the first 20
immediate children alone.  A pattern-free directory with 21 file children is
estimated from all 21 of them (21 x 100KB = 2150400 bytes), which differs from
the estimate over its first 20 children (2048000 bytes); the loop stops only
once the combined count exceeds 20, so the 21st child is still counted. -/
theorem c4_counterexample :
    estimateDirectorySize "proj" (.ok (List.replicate 21 .file)) = 2150400 ∧
    estimateDirectorySize "proj" (.ok ((List.replicate 21 .file).take 20)) = 2048000 ∧
    estimateDirectorySize "proj" (.ok (List.replicate 21 .file)) ≠
      estimateDirectorySize "proj" (.ok ((List.replicate 21 .file).take 20)) := by
  refine ⟨?_, ?_, ?_⟩ <;> decide

/-- The counting loop never reports more than 21 counted children once started
below the cutoff. -/
lemma countChildren_total_le (l : List ChildKind) : ∀ fc dc : Nat,
    fc + dc ≤ 20 →
    (countChildren l fc dc).1 + (countChildren l fc dc).2 ≤ 21 := by
  induction l with
  | nil => intro fc dc h; simpa [countChildren] using h.trans (by omega)
  | cons k rest ih =>
    intro fc dc h
    cases k with
    | file =>
      unfold countChildren
      by_cases hc : fc + 1 + dc > 20
      · rw [if_pos hc]; omega
      · rw [if_neg hc]; exact ih (fc + 1) dc (by omega)
    | dir =>
      unfold countChildren
      by_cases hc : fc + (dc + 1) > 20
      · rw [if_pos hc]; omega
      · rw [if_neg hc]; exact ih fc (dc + 1) (by omega)
    | other =>
      unfold countChildren
      rw [if_neg (by omega : ¬ fc + dc > 20)]
      exact ih fc dc h

/-- When every child is a file or a directory, the counting loop only ever
inspects the first `21 - (fc + dc)` children. -/
lemma countChildren_take (l : List ChildKind) : ∀ fc dc : Nat,
    (∀ c ∈ l, c ≠ ChildKind.other) →
    fc + dc ≤ 20 →
    countChildren (l.take (21 - (fc + dc))) fc dc = countChildren l fc dc := by
  induction l with
  | nil => intro fc dc _ _; rw [List.take_nil]
  | cons k rest ih =>
    intro fc dc hother h
    have hk : k ≠ ChildKind.other := hother k (List.mem_cons_self k rest)
    have htake : 21 - (fc + dc) = (21 - (fc + dc) - 1) + 1 := by omega
    rw [htake, List.take_succ_cons]
    cases k with
    | file =>
      unfold countChildren
      by_cases hc : fc + 1 + dc > 20
      · rw [if_pos hc, if_pos hc]
      · rw [if_neg hc, if_neg hc]
        have : 21 - (fc + dc) - 1 = 21 - (fc + 1 + dc) := by omega
        rw [this]
        exact ih (fc + 1) dc (fun c hc => hother c (List.mem_cons_of_mem _ hc)) (by omega)
    | dir =>
      unfold countChildren
      by_cases hc : fc + (dc + 1) > 20
      · rw [if_pos hc, if_pos hc]
      · rw [if_neg hc, if_neg hc]
        have : 21 - (fc + dc) - 1 = 21 - (fc + (dc + 1)) := by omega
        rw [this]
        exact ih fc (dc + 1) (fun c hc => hother c (List.mem_cons_of_mem _ hc)) (by omega)
    | other => exact absurd rfl hk

/-- C4 amended: for a directory whose lowercased basename matches none of the
fixed pattern buckets, the size estimate is computed from at most the first 21
counted immediate children (the loop stops only once the combined file and
directory count exceeds 20), as counted files x 100KB plus counted
subdirectories x 10MB, floored at 1MB; the estimate depends only on that
bounded prefix of the child listing and never on a recursive walk. -/
theorem c4_amended_bounded_estimate :
    (∀ (name : String) (children : List ChildKind),
      nameHasSizePattern name = false →
      estimateDirectorySize name (.ok children) =
        max ((countChildren children 0 0).1 * 100 * 1024 +
             (countChildren children 0 0).2 * 10 * 1024 * 1024) (1024 * 1024)) ∧
    (∀ children : List ChildKind,
      (countChildren children 0 0).1 + (countChildren children 0 0).2 ≤ 21) ∧
    (∀ (name : String) (children : List ChildKind),
      (∀ c ∈ children, c ≠ ChildKind.other) →
      estimateDirectorySize name (.ok children) =
        estimateDirectorySize name (.ok (children.take 21))) := by
  have hpat : ∀ name : String, nameHasSizePattern name = false →
      (nameMatchesAny ["node_modules", "venv", "env", ".git"] (strLower name) = false ∧
       nameMatchesAny ["__pycache__", ".cache", "build", "dist"] (strLower name) = false ∧
       nameMatchesAny ["models", "hugging_face", "datasets"] (strLower name) = false ∧
       nameMatchesAny ["test", "example", "demo"] (strLower name) = false) := by
    intro name h
    unfold nameHasSizePattern at h
    simp only [Bool.or_eq_false_iff] at h
    exact ⟨h.1.1.1, h.1.1.2, h.1.2, h.2⟩
  have hform : ∀ (name : String) (children : List ChildKind),
      nameHasSizePattern name = false →
      estimateDirectorySize name (.ok children) =
        max ((countChildren children 0 0).1 * 100 * 1024 +
             (countChildren children 0 0).2 * 10 * 1024 * 1024) (1024 * 1024) := by
    intro name children h
    obtain ⟨h1, h2, h3, h4⟩ := hpat name h
    unfold estimateDirectorySize
    simp only [DirScan.seenChildren, h1, h2, h3, h4, Bool.false_eq_true, if_false]
  refine ⟨hform, fun children => countChildren_total_le children 0 0 (by omega), ?_⟩
  intro name children hother
  have h21 : countChildren (children.take 21) 0 0 = countChildren children 0 0 := by
    simpa using countChildren_take children 0 0 hother (by omega)
  unfold estimateDirectorySize
  simp only [DirScan.seenChildren, h21]

/-- Witness for C4's amended theorem at a concrete pattern-free directory with
a 25-children listing. -/
theorem c4_amended_witness :
    nameHasSizePattern "proj" = false ∧
    estimateDirectorySize "proj" (.ok (List.replicate 25 .file)) =
      max ((countChildren (List.replicate 25 ChildKind.file) 0 0).1 * 100 * 1024 +
           (countChildren (List.replicate 25 ChildKind.file) 0 0).2 * 10 * 1024 * 1024)
          (1024 * 1024) ∧
    estimateDirectorySize "proj" (.ok (List.replicate 25 .file)) =
      estimateDirectorySize "proj" (.ok ((List.replicate 25 ChildKind.file).take 21)) :=
  ⟨by decide,
   c4_amended_bounded_estimate.1 "proj" (List.replicate 25 .file) (by decide),
   c4_amended_bounded_estimate.2.2 "proj" (List.replicate 25 .file) (by decide)⟩

/-- C9 counterexample: a failure to list the children of a pattern-free
directory does NOT yield the 10MB default: the counts gathered before the
failure are kept and the floored formula applies, here 1MB for a listing that
failed immediately. -/
theorem c9_counterexample :
    estimateDirectorySize "proj" (.failedAfter []) = 1024 * 1024 ∧
    estimateDirectorySize "proj" (.failedAfter []) ≠ 10 * 1024 * 1024 := by
  constructor <;> decide

/-- C9 amended: the directory size estimate is total and always at least 1MB
(the pattern constants are at least 5MB, the child-count formula is floored at
1MB, and a failure while listing children keeps the counts gathered so far and
still yields the floored formula); only an unexpected error outside the child
scan yields the fixed 10MB default. -/
theorem c9_amended_estimate_at_least_1mb :
    (∀ (name : String) (scan : DirScan),
      1024 * 1024 ≤ estimateDirectorySize name scan) ∧
    (∀ name : String, estimateDirectorySize name .outerError = 10 * 1024 * 1024) ∧
    (∀ (name : String) (seen : List ChildKind),
      estimateDirectorySize name (.failedAfter seen) =
        estimateDirectorySize name (.ok seen)) := by
  refine ⟨?_, fun _ => rfl, fun _ _ => rfl⟩
  intro name scan
  cases scan with
  | outerError => norm_num [estimateDirectorySize]
  | ok children =>
    unfold estimateDirectorySize
    split_ifs <;> norm_num
  | failedAfter seen =>
    unfold estimateDirectorySize
    split_ifs <;> norm_num

/-! ## The analysis pass (`analyze_access_patterns`, backend lines 213-300) -/

/-- The stat record built by `get_file_stats` for one entry (timestamps and
size; the ctime and the formatted date string play no role in any claim and
are omitted). -/
structure EntryStat where
  path : String
  atime : ℚ
  mtime : ℚ
  size : Nat
deriving DecidableEq, Repr

/-- One immediate child of the playground root as the analysis loop sees it:
its name, whether it is a directory, and the stat result (`none` models
`get_file_stats` returning `None` after a per-entry failure). -/
structure FsItem where
  name : String
  isDir : Bool
  statResult : Option EntryStat
deriving DecidableEq, Repr

/-- Python's `str.startswith`, computed on character lists so that it
evaluates inside the kernel. -/
def strStartsWith (pre s : String) : Bool :=
  pre.data.isPrefixOf s.data

/-- The fixed allow-list of important hidden files (backend lines 243-244). -/
def importantHidden : List String :=
  [".gitignore", ".env.example", ".npmignore", ".dockerignore",
   ".editorconfig", ".prettierrc", ".eslintrc", ".gitattributes"]

/-- The hidden-entry filter (backend lines 241-247): names starting with a dot
are skipped unless on the important-hidden allow-list. -/
def skipHidden (name : String) : Bool :=
  strStartsWith "." name && !(importantHidden.contains name)

/-- The exclusion filter (backend lines 250-252): applies to directories
only. -/
def skipExcludedDir (excludedDirs : List String) (i : FsItem) : Bool :=
  i.isDir && excludedDirs.contains i.name

/-- Configuration slice consumed by the analysis pass. -/
structure AnalyzeConfig where
  excludedDirs : List String
  thresholds : Thresholds
deriving DecidableEq, Repr

/-- An entry as it lands in a bucket list: the enriched stats dict. -/
structure ProcessedEntry where
  name : String
  stat : EntryStat
  daysSinceUsed : ℚ
deriving DecidableEq, Repr

/-- The four bucket lists returned by the analysis. -/
structure AnalyzeResults where
  current : List ProcessedEntry
  recent : List ProcessedEntry
  old : List ProcessedEntry
  archive : List ProcessedEntry
deriving DecidableEq, Repr

/-- The initial empty grouping (backend lines 217-222). -/
def emptyResults : AnalyzeResults := ⟨[], [], [], []⟩

/-- Appending an entry to the bucket list selected by its time bucket
(the `results[...].append` calls of backend lines 268-279). -/
def addToBucket (r : AnalyzeResults) (tb : TimeBucket)
    (pe : ProcessedEntry) : AnalyzeResults :=
  match tb with
  | .current => { r with current := r.current ++ [pe] }
  | .recent => { r with recent := r.recent ++ [pe] }
  | .old => { r with old := r.old ++ [pe] }
  | .archive => { r with archive := r.archive ++ [pe] }

/-- The body of the analysis loop for one item (backend lines 237-285): skip
hidden names outside the allow-list, skip excluded directories, skip entries
whose stat failed, and append everything else to the bucket chosen by the
age-in-days categorization. -/
def processItem (cfg : AnalyzeConfig) (now : ℚ) (r : AnalyzeResults)
    (i : FsItem) : AnalyzeResults :=
  if skipHidden i.name then r
  else if skipExcludedDir cfg.excludedDirs i then r
  else
    match i.statResult with
    | none => r
    | some st =>
      addToBucket r
        (classifyTime cfg.thresholds (ageDays now (max st.atime st.mtime)))
        ⟨i.name, st, ageDays now (max st.atime st.mtime)⟩

/-- Ordering used to sort each bucket: ascending days-since-used, i.e.
most recently used first (backend lines 288-289). -/
def peLE (a b : ProcessedEntry) : Prop :=
  a.daysSinceUsed ≤ b.daysSinceUsed

instance : DecidableRel peLE :=
  fun a b => inferInstanceAs (Decidable (a.daysSinceUsed ≤ b.daysSinceUsed))

/-- `list.sort(key=lambda x: x['days_since_used'])` for one bucket. -/
def sortByDays (l : List ProcessedEntry) : List ProcessedEntry :=
  l.insertionSort peLE

/-- The state of the playground root when the analysis starts. -/
inductive RootState
  | missing
  | notDir
  | dir (items : List FsItem)
deriving DecidableEq, Repr

/-- `PlaygroundOrganizer.analyze_access_patterns` (backend lines 213-300):
a missing root or a root that is not a directory yields the empty grouping
(backend lines 226-232); otherwise every immediate child runs through the
per-item loop and each bucket is sorted by recency. -/
def analyzeAccessPatterns (cfg : AnalyzeConfig) (now : ℚ) :
    RootState → AnalyzeResults
  | .missing => emptyResults
  | .notDir => emptyResults
  | .dir items =>
    let r := items.foldl (processItem cfg now) emptyResults
    ⟨sortByDays r.current, sortByDays r.recent, sortByDays r.old,
     sortByDays r.archive⟩

/-- Whether an item survives all the analysis filters: not hidden-and-skipped,
not an excluded directory, and successfully stat'ed. -/
def keepItem (cfg : AnalyzeConfig) (i : FsItem) : Bool :=
  !skipHidden i.name && !skipExcludedDir cfg.excludedDirs i &&
    i.statResult.isSome

/-- The processed entry an item contributes, if it survives the filters. -/
def processedOf (cfg : AnalyzeConfig) (now : ℚ) (i : FsItem) :
    Option ProcessedEntry :=
  if skipHidden i.name then none
  else if skipExcludedDir cfg.excludedDirs i then none
  else i.statResult.map
    (fun st => ⟨i.name, st, ageDays now (max st.atime st.mtime)⟩)

/-- The contents of all four buckets, as a multiset. -/
def bucketsMultiset (r : AnalyzeResults) : Multiset ProcessedEntry :=
  (↑r.current + ↑r.recent + ↑r.old + ↑r.archive : Multiset ProcessedEntry)

/-- Whichever bucket an entry is appended to, the combined bucket contents
grow by exactly that entry. -/
lemma bucketsMultiset_addToBucket (r : AnalyzeResults) (tb : TimeBucket)
    (pe : ProcessedEntry) :
    bucketsMultiset (addToBucket r tb pe) = bucketsMultiset r + ↑[pe] := by
  cases tb <;>
    · simp only [addToBucket, bucketsMultiset, ← Multiset.coe_add]
      abel

/-- One loop iteration adds exactly the processed entry of its item (or
nothing) to the combined bucket contents. -/
lemma bucketsMultiset_processItem (cfg : AnalyzeConfig) (now : ℚ)
    (r : AnalyzeResults) (i : FsItem) :
    bucketsMultiset (processItem cfg now r i) =
      bucketsMultiset r + ↑((processedOf cfg now i).toList) := by
  unfold processItem processedOf
  by_cases h1 : skipHidden i.name
  · simp [h1]
  · by_cases h2 : skipExcludedDir cfg.excludedDirs i
    · simp [h1, h2]
    · simp only [h1, h2, Bool.false_eq_true, if_false]
      cases hst : i.statResult with
      | none => simp
      | some st => simp [bucketsMultiset_addToBucket]

/-- Folding the loop over an item list adds exactly the processed entries of
the kept items. -/
lemma bucketsMultiset_foldl (cfg : AnalyzeConfig) (now : ℚ) :
    ∀ (items : List FsItem) (r : AnalyzeResults),
    bucketsMultiset (items.foldl (processItem cfg now) r) =
      bucketsMultiset r + ↑(items.filterMap (processedOf cfg now)) := by
  intro items
  induction items with
  | nil => intro r; simp
  | cons i rest ih =>
    intro r
    rw [List.foldl_cons, ih, bucketsMultiset_processItem, List.filterMap_cons]
    cases h : processedOf cfg now i <;> simp [add_assoc]

/-- Sorting a bucket permutes it. -/
lemma coe_sortByDays (l : List ProcessedEntry) :
    (↑(sortByDays l) : Multiset ProcessedEntry) = ↑l :=
  Multiset.coe_eq_coe.mpr (List.perm_insertionSort peLE l)

/-- The processed entries are in bijection with the kept items. -/
lemma length_filterMap_processedOf (cfg : AnalyzeConfig) (now : ℚ) :
    ∀ items : List FsItem,
    (items.filterMap (processedOf cfg now)).length =
      (items.filter (keepItem cfg)).length := by
  intro items
  induction items with
  | nil => rfl
  | cons i rest ih =>
    rw [List.filterMap_cons, List.filter_cons]
    by_cases h1 : skipHidden i.name
    · have hpo : processedOf cfg now i = none := by simp [processedOf, h1]
      have hki : keepItem cfg i = false := by simp [keepItem, h1]
      simp [hpo, hki, ih]
    · by_cases h2 : skipExcludedDir cfg.excludedDirs i
      · have hpo : processedOf cfg now i = none := by simp [processedOf, h1, h2]
        have hki : keepItem cfg i = false := by simp [keepItem, h2]
        simp [hpo, hki, ih]
      · cases hst : i.statResult with
        | none =>
          have hpo : processedOf cfg now i = none := by
            simp [processedOf, h1, h2, hst]
          have hki : keepItem cfg i = false := by simp [keepItem, hst]
          simp [hpo, hki, ih]
        | some st =>
          have hpo : processedOf cfg now i =
              some ⟨i.name, st, ageDays now (max st.atime st.mtime)⟩ := by
            simp [processedOf, h1, h2, hst]
          have hki : keepItem cfg i = true := by simp [keepItem, h1, h2, hst]
          simp [hpo, hki, ih]

/-- C7: after analysis of a root directory, the sum of the sizes of the four
time-bucket lists equals the number of immediate children that pass the
hidden-name and excluded-directory filters and were successfully stat'ed, and
the combined bucket contents are exactly the processed entries of those
children (each kept entry lands in exactly one bucket). -/
theorem c7_bucket_partition_invariant (cfg : AnalyzeConfig) (now : ℚ)
    (items : List FsItem) :
    ((analyzeAccessPatterns cfg now (.dir items)).current.length +
     (analyzeAccessPatterns cfg now (.dir items)).recent.length +
     (analyzeAccessPatterns cfg now (.dir items)).old.length +
     (analyzeAccessPatterns cfg now (.dir items)).archive.length =
       (items.filter (keepItem cfg)).length) ∧
    bucketsMultiset (analyzeAccessPatterns cfg now (.dir items)) =
      ↑(items.filterMap (processedOf cfg now)) := by
  have hmain : bucketsMultiset (analyzeAccessPatterns cfg now (.dir items)) =
      ↑(items.filterMap (processedOf cfg now)) := by
    show bucketsMultiset
        ⟨sortByDays (items.foldl (processItem cfg now) emptyResults).current,
         sortByDays (items.foldl (processItem cfg now) emptyResults).recent,
         sortByDays (items.foldl (processItem cfg now) emptyResults).old,
         sortByDays (items.foldl (processItem cfg now) emptyResults).archive⟩ = _
    unfold bucketsMultiset
    simp only [coe_sortByDays]
    have := bucketsMultiset_foldl cfg now items emptyResults
    unfold bucketsMultiset at this
    simpa [emptyResults] using this
  refine ⟨?_, hmain⟩
  have hcard := congrArg Multiset.card hmain
  simp only [bucketsMultiset, Multiset.card_add, Multiset.coe_card] at hcard
  rw [hcard, length_filterMap_processedOf]

/-- A per-entry stat failure contributes nothing to the analysis. -/
lemma processItem_statFailure (cfg : AnalyzeConfig) (now : ℚ)
    (r : AnalyzeResults) (i : FsItem) (h : i.statResult = none) :
    processItem cfg now r i = r := by
  unfold processItem
  rw [h]
  by_cases h1 : skipHidden i.name
  · simp [h1]
  · by_cases h2 : skipExcludedDir cfg.excludedDirs i <;> simp [h1, h2]

/-- C8: analysis never fails because of a single entry: an item whose stat
fails is skipped and the scan continues as if it were absent, and the only
fatal conditions are the root-path problems (root missing or not a directory),
for which analysis returns the empty grouping rather than an error. -/
theorem c8_per_entry_failures_never_fatal (cfg : AnalyzeConfig) (now : ℚ) :
    analyzeAccessPatterns cfg now .missing = emptyResults ∧
    analyzeAccessPatterns cfg now .notDir = emptyResults ∧
    (∀ (pre post : List FsItem) (bad : FsItem), bad.statResult = none →
      analyzeAccessPatterns cfg now (.dir (pre ++ bad :: post)) =
        analyzeAccessPatterns cfg now (.dir (pre ++ post))) := by
  refine ⟨rfl, rfl, ?_⟩
  intro pre post bad hbad
  show (⟨_, _, _, _⟩ : AnalyzeResults) = ⟨_, _, _, _⟩
  have hfold : (pre ++ bad :: post).foldl (processItem cfg now) emptyResults =
      (pre ++ post).foldl (processItem cfg now) emptyResults := by
    rw [List.foldl_append, List.foldl_append, List.foldl_cons,
        processItem_statFailure cfg now _ bad hbad]
  rw [hfold]

/-- Witness for C8 at a concrete configuration and a concrete failing item. -/
theorem c8_witness :
    analyzeAccessPatterns ⟨["node_modules"], ⟨30, 180, 365⟩⟩ 0
        (.dir [⟨"broken", false, none⟩]) =
      analyzeAccessPatterns ⟨["node_modules"], ⟨30, 180, 365⟩⟩ 0 (.dir []) :=
  (c8_per_entry_failures_never_fatal ⟨["node_modules"], ⟨30, 180, 365⟩⟩ 0).2.2
    [] [] ⟨"broken", false, none⟩ rfl

/-! ## Configuration loading and persistence -/

/-- The thresholds sub-dictionary of a stored config as the standalone script
reads it: each key may be missing (standalone lines 27-29 use per-key
defaults). -/
structure StoredThresholds where
  current : Option Int
  recent : Option Int
  old : Option Int
deriving DecidableEq, Repr

/-- The JSON config document as a dictionary with possibly-missing keys
(backend lines 121-130 list the full key set; the standalone additionally
reads a thresholds sub-dictionary). -/
structure StoredConfig where
  trackingEnabled : Option Bool
  autoOrganize : Option Bool
  excludedDirs : Option (List String)
  lastOrganized : Option (Option String)
  useSymlinks : Option Bool
  symlinkBaseDir : Option String
  themeMappings : Option ThemeTable
  organizationModes : Option (List String)
  thresholds : Option StoredThresholds
deriving DecidableEq, Repr

/-- The empty dictionary the standalone loader falls back to. -/
def emptyStoredConfig : StoredConfig :=
  ⟨none, none, none, none, none, none, none, none, none⟩

/-- The state of the on-disk config file when loading starts. -/
inductive ConfigFileState
  | absent
  | corrupt
  | valid (cfg : StoredConfig)
deriving DecidableEq, Repr

/-- The exception `json.load` raises on malformed contents. -/
inductive LoadError
  | jsonDecodeError
deriving DecidableEq, Repr

/-- The backfill of the four required keys on a loaded config (backend
lines 99-115); the boolean records whether any key was missing, in which case
`save_config` is called immediately. -/
def backfillConfig (c : StoredConfig) : StoredConfig × Bool :=
  ({ c with
      themeMappings := some (c.themeMappings.getD defaultThemeMappings),
      useSymlinks := some (c.useSymlinks.getD true),
      symlinkBaseDir := some (c.symlinkBaseDir.getD "organized"),
      organizationModes := some (c.organizationModes.getD ["time", "theme"]) },
   c.themeMappings.isNone || c.useSymlinks.isNone ||
     c.symlinkBaseDir.isNone || c.organizationModes.isNone)

/-- The full default config the backend constructs when no file exists
(backend lines 117-131), with the exclusion list from the environment. -/
def defaultBackendConfig (envExcludedDirs : List String) : StoredConfig where
  trackingEnabled := some true
  autoOrganize := some false
  excludedDirs := some envExcludedDirs
  lastOrganized := some none
  useSymlinks := some true
  symlinkBaseDir := some "organized"
  themeMappings := some defaultThemeMappings
  organizationModes := some ["time", "theme"]
  thresholds := none

/-- The backend `load_config` (lines 95-131): a parse failure of an existing
file is NOT caught, so `json.load`'s error propagates to the caller; a valid
file is backfilled (and re-saved when a key was missing); an absent file gets
full defaults, persisted at once.  The boolean records whether `save_config`
ran. -/
def backendLoadConfig (envExcludedDirs : List String) :
    ConfigFileState → Except LoadError (StoredConfig × Bool)
  | .corrupt => .error .jsonDecodeError
  | .valid c => .ok (backfillConfig c)
  | .absent => .ok (defaultBackendConfig envExcludedDirs, true)

/-- The standalone `_load_config` (lines 49-59): a decode or IO error is
caught, a warning is printed, and the empty dictionary is returned; the loader
never writes the file (the boolean, always false, records a save). -/
def standaloneLoadConfig : ConfigFileState → StoredConfig × Bool
  | .valid c => (c, false)
  | .corrupt => (emptyStoredConfig, false)
  | .absent => (emptyStoredConfig, false)

/-- The effective thresholds of the standalone organizer (lines 27-29):
per-key defaults 30/180/365 days applied over whatever the config holds. -/
def standaloneEffectiveThresholds (c : StoredConfig) : Thresholds :=
  ⟨(c.thresholds.getD ⟨none, none, none⟩).current.getD 30,
   (c.thresholds.getD ⟨none, none, none⟩).recent.getD 180,
   (c.thresholds.getD ⟨none, none, none⟩).old.getD 365⟩

/-- C6 counterexample: the backend `load_config` DOES raise on a config file
whose contents fail to parse as JSON: the `json.load` error propagates instead
of being caught. -/
theorem c6_counterexample :
    backendLoadConfig [".git", "node_modules"] .corrupt =
      .error .jsonDecodeError := rfl

/-- C6 amended: the standalone loader never raises and never persists: on a
corrupt (or unreadable) config file it warns and returns the empty dictionary,
over which the in-memory defaults apply (thresholds 30/180/365); the backend
`load_config`, by contrast, propagates the JSON parse error to its caller. -/
theorem c6_amended_parse_failure_handling :
    (∀ st : ConfigFileState, (standaloneLoadConfig st).2 = false) ∧
    standaloneLoadConfig .corrupt = (emptyStoredConfig, false) ∧
    standaloneEffectiveThresholds emptyStoredConfig = ⟨30, 180, 365⟩ ∧
    (∀ envExcludedDirs : List String,
      backendLoadConfig envExcludedDirs .corrupt = .error .jsonDecodeError) := by
  refine ⟨?_, rfl, rfl, fun _ => rfl⟩
  intro st
  cases st <;> rfl

/-! ## `organize_files` (backend lines 318-359) -/

/-- The four buckets in the iteration order of the analysis dict. -/
def bucketLists (a : AnalyzeResults) : List (String × List ProcessedEntry) :=
  [("current", a.current), ("recent", a.recent), ("old", a.old),
   ("archive", a.archive)]

/-- The move list built by `organize_files` when not in dry-run mode (backend
lines 325-342): for every analyzed entry whose current path differs from
`playground / category / name`, a `(source, target)` pair. -/
def plannedMoves (playgroundPath : String) (a : AnalyzeResults) :
    List (String × String) :=
  ((bucketLists a).map (fun cat =>
    cat.2.filterMap (fun e =>
      if e.stat.path ≠ playgroundPath ++ "/" ++ cat.1 ++ "/" ++ e.name then
        some (e.stat.path, playgroundPath ++ "/" ++ cat.1 ++ "/" ++ e.name)
      else none))).flatten

/-- `Path.mkdir(exist_ok=True)`: creates the directory when the path is free,
leaves an existing node alone. -/
def mkdirIfAbsent (fs : Fs) (p : String) : Fs :=
  if (fs p).isSome then fs
  else fun q => if q = p then some .realDir else fs q

/-- `create_organization_structure('time')` (backend lines 304-307). -/
def createOrganizationStructureTime (playgroundPath : String) (fs : Fs) : Fs :=
  (["current", "recent", "old", "archive"].map
    (fun c => playgroundPath ++ "/" ++ c)).foldl mkdirIfAbsent fs

/-- `PlaygroundOrganizer.organize_files` (backend lines 318-359) over the
analysis it computed: in dry-run mode nothing is mutated; otherwise, when at
least one move was planned, the time directories are created, every move is
attempted through the skip-existing execution loop, `last_organized` is set to
the current ISO time and the config is saved.  Result: final filesystem, final
config, and whether `save_config` ran. -/
def organizeFiles (playgroundPath : String) (a : AnalyzeResults) (fs : Fs)
    (cfg : StoredConfig) (nowIso : String) (dryRun : Bool) :
    Fs × StoredConfig × Bool :=
  let moves := if dryRun then [] else plannedMoves playgroundPath a
  if !dryRun && !moves.isEmpty then
    (moves.foldl (fun f m => (moveStep f m.1 m.2).1)
       (createOrganizationStructureTime playgroundPath fs),
     { cfg with lastOrganized := some (some nowIso) },
     true)
  else
    (fs, cfg, false)

/-- In execute mode with a nonempty move list, `organize_files` runs the moves
and saves the config with only `last_organized` rewritten. -/
lemma organizeFiles_execute (playgroundPath : String) (a : AnalyzeResults)
    (fs : Fs) (cfg : StoredConfig) (nowIso : String)
    (h : (plannedMoves playgroundPath a).isEmpty = false) :
    organizeFiles playgroundPath a fs cfg nowIso false =
      ((plannedMoves playgroundPath a).foldl
         (fun f m => (moveStep f m.1 m.2).1)
         (createOrganizationStructureTime playgroundPath fs),
       { cfg with lastOrganized := some (some nowIso) },
       true) := by
  unfold organizeFiles
  simp [h]

/-- C10: `organize_files` with dry_run leaves the filesystem and every config
field untouched and does not save; with dry_run off and at least one move
planned it saves the config having rewritten exactly `last_organized` to the
current ISO time, leaving tracking_enabled, auto_organize, excluded_dirs,
thresholds, use_symlinks, symlink_base_dir, theme_mappings and
organization_modes unchanged. -/
theorem c10_organize_files_config_frame (playgroundPath : String)
    (a : AnalyzeResults) (fs : Fs) (cfg : StoredConfig) (nowIso : String) :
    organizeFiles playgroundPath a fs cfg nowIso true = (fs, cfg, false) ∧
    (plannedMoves playgroundPath a ≠ [] →
      ((organizeFiles playgroundPath a fs cfg nowIso false).2.1.lastOrganized =
          some (some nowIso) ∧
       (organizeFiles playgroundPath a fs cfg nowIso false).2.2 = true ∧
       (organizeFiles playgroundPath a fs cfg nowIso false).2.1.trackingEnabled =
          cfg.trackingEnabled ∧
       (organizeFiles playgroundPath a fs cfg nowIso false).2.1.autoOrganize =
          cfg.autoOrganize ∧
       (organizeFiles playgroundPath a fs cfg nowIso false).2.1.excludedDirs =
          cfg.excludedDirs ∧
       (organizeFiles playgroundPath a fs cfg nowIso false).2.1.useSymlinks =
          cfg.useSymlinks ∧
       (organizeFiles playgroundPath a fs cfg nowIso false).2.1.symlinkBaseDir =
          cfg.symlinkBaseDir ∧
       (organizeFiles playgroundPath a fs cfg nowIso false).2.1.themeMappings =
          cfg.themeMappings ∧
       (organizeFiles playgroundPath a fs cfg nowIso false).2.1.organizationModes =
          cfg.organizationModes ∧
       (organizeFiles playgroundPath a fs cfg nowIso false).2.1.thresholds =
          cfg.thresholds)) := by
  constructor
  · rfl
  · intro h
    have hne : (plannedMoves playgroundPath a).isEmpty = false := by
      cases hm : plannedMoves playgroundPath a with
      | nil => exact absurd hm h
      | cons x xs => rfl
    rw [organizeFiles_execute playgroundPath a fs cfg nowIso hne]
    exact ⟨rfl, rfl, rfl, rfl, rfl, rfl, rfl, rfl, rfl, rfl⟩

/-- A concrete analysis result with one entry whose path differs from its
bucket target. -/
def c10Results : AnalyzeResults :=
  ⟨[⟨"proj", ⟨"pg/proj", 0, 0, 1024⟩, 0⟩], [], [], []⟩

/-- The everywhere-empty filesystem. -/
def emptyFs : Fs := fun _ => none

/-- Witness for C10 at a concrete analysis, filesystem and config. -/
theorem c10_witness :
    organizeFiles "pg" c10Results emptyFs emptyStoredConfig "2024-06-01T00:00:00"
        true = (emptyFs, emptyStoredConfig, false) ∧
    plannedMoves "pg" c10Results ≠ [] ∧
    (organizeFiles "pg" c10Results emptyFs emptyStoredConfig "2024-06-01T00:00:00"
        false).2.1.lastOrganized = some (some "2024-06-01T00:00:00") ∧
    (organizeFiles "pg" c10Results emptyFs emptyStoredConfig "2024-06-01T00:00:00"
        false).2.2 = true :=
  ⟨(c10_organize_files_config_frame "pg" c10Results emptyFs emptyStoredConfig
      "2024-06-01T00:00:00").1,
   by decide,
   ((c10_organize_files_config_frame "pg" c10Results emptyFs emptyStoredConfig
      "2024-06-01T00:00:00").2 (by decide)).1,
   (((c10_organize_files_config_frame "pg" c10Results emptyFs emptyStoredConfig
      "2024-06-01T00:00:00").2 (by decide)).2).1⟩

/-! ## Theme-mode organization (backend lines 361-410, standalone
lines 234-275) -/

/-- A filesystem action of the planners: create a directory, move or symlink
an entry, skip it because the destination exists, or record an error. -/
inductive Action
  | makeDir (path : String)
  | move (src dst : String)
  | symlink (src dst : String)
  | skipExisting (src dst : String)
  | errorAction (src : String)
deriving DecidableEq, Repr

/-- An analyzed entry as the theme organizers consume it: its basename, its
detected theme and its source path. -/
structure ThemedEntry where
  name : String
  theme : String
  srcPath : String
deriving DecidableEq, Repr

/-- The theme subdirectory `base / "organized" / "by-theme" / theme` (both
organizers use the default base-dir name "organized"). -/
def themeDirPath (baseDir theme : String) : String :=
  baseDir ++ "/organized/by-theme/" ++ theme

/-- The destination `theme_dir / name` of one entry. -/
def themeTargetPath (baseDir theme name : String) : String :=
  themeDirPath baseDir theme ++ "/" ++ name

/-- `Path.symlink_to`: raises `FileExistsError` (an `OSError`) when the target
path is occupied by anything at all, otherwise creates the link (standalone
lines 269-273 catch the `OSError` and record an ERROR action). -/
def symlinkTo (fs : Fs) (target source : String) : Fs × Bool :=
  match fs target with
  | some _ => (fs, false)
  | none => (fun p => if p = target then some (.symlink source) else fs p, true)

/-- One entry of the standalone `organize_by_theme` loop (lines 256-273): an
existing destination records a SKIP action and leaves the entry alone; in
dry-run a would-symlink action is recorded; otherwise `symlink_to` runs, with
an ERROR action when it raises. -/
def standaloneThemeEntryStep (baseDir : String) (dryRun : Bool)
    (st : Fs × List Action) (e : ThemedEntry) : Fs × List Action :=
  if pathExists st.1 (themeTargetPath baseDir e.theme e.name) then
    (st.1, st.2 ++ [.skipExisting e.srcPath (themeTargetPath baseDir e.theme e.name)])
  else if dryRun then
    (st.1, st.2 ++ [.symlink e.srcPath (themeTargetPath baseDir e.theme e.name)])
  else if (symlinkTo st.1 (themeTargetPath baseDir e.theme e.name) e.srcPath).2 then
    ((symlinkTo st.1 (themeTargetPath baseDir e.theme e.name) e.srcPath).1,
     st.2 ++ [.symlink e.srcPath (themeTargetPath baseDir e.theme e.name)])
  else
    ((symlinkTo st.1 (themeTargetPath baseDir e.theme e.name) e.srcPath).1,
     st.2 ++ [.errorAction e.srcPath])

/-- One theme-directory creation step of the standalone organizer
(lines 246-253): outside dry-run, a missing theme directory is created and
recorded. -/
def standaloneThemeDirStep (baseDir : String) (dryRun : Bool)
    (st : Fs × List Action) (theme : String) : Fs × List Action :=
  if !dryRun && !(pathExists st.1 (themeDirPath baseDir theme)) then
    (mkdirIfAbsent st.1 (themeDirPath baseDir theme),
     st.2 ++ [.makeDir (themeDirPath baseDir theme)])
  else st

/-- The standalone `organize_by_theme` (lines 234-275): create the theme base
(outside dry-run), create the missing theme directories, then run the
per-entry loop over the analyzed entries. -/
def standaloneOrganizeByTheme (baseDir : String) (dryRun : Bool)
    (themes : List String) (entries : List ThemedEntry) (fs : Fs) :
    Fs × List Action :=
  entries.foldl (standaloneThemeEntryStep baseDir dryRun)
    (themes.foldl (standaloneThemeDirStep baseDir dryRun)
      (if dryRun then (fs, [])
       else (mkdirIfAbsent fs (baseDir ++ "/organized/by-theme"),
             [Action.makeDir (baseDir ++ "/organized/by-theme")])))

/-- One entry of the backend `organize_by_theme` inner loop (lines 394-405):
the create-symlink action is recorded unconditionally, and outside dry-run
`create_symlink` runs (replacing only stale symlinks, refusing real nodes). -/
def backendThemeEntryStep (baseDir : String) (dryRun : Bool) (theme : String)
    (st : Fs × List Action) (e : ThemedEntry) : Fs × List Action :=
  if dryRun then
    (st.1, st.2 ++ [.symlink e.srcPath (themeTargetPath baseDir theme e.name)])
  else
    ((createSymlink st.1 e.srcPath (themeTargetPath baseDir theme e.name)).1,
     st.2 ++ [.symlink e.srcPath (themeTargetPath baseDir theme e.name)])

/-- One theme group of the backend `organize_by_theme` outer loop
(lines 387-405). -/
def backendThemeGroupStep (baseDir : String) (dryRun : Bool)
    (st : Fs × List Action) (g : String × List ThemedEntry) :
    Fs × List Action :=
  g.2.foldl (backendThemeEntryStep baseDir dryRun g.1) st

/-- The backend `organize_by_theme` (lines 361-410) over the grouped entries
(`theme_items` in the source). -/
def backendOrganizeByTheme (baseDir : String) (dryRun : Bool)
    (groups : List (String × List ThemedEntry)) (fs : Fs) :
    Fs × List Action :=
  groups.foldl (backendThemeGroupStep baseDir dryRun) (fs, [])

/-- The concrete filesystem of the C5 scenario: the entry's theme destination
already exists as a real directory. -/
def c5Fs : Fs := fun p =>
  if p = "pg/organized/by-theme/ai/foo" then some .realDir
  else if p = "pg/foo" then some .realDir
  else none

/-- C5 counterexample: for an entry whose theme destination exists as a real
directory, the backend theme organizer's action list holds only the
create-symlink action and NO SkipExisting action, although execution does
leave the filesystem untouched. -/
theorem c5_counterexample :
    (backendOrganizeByTheme "pg" false [("ai", [⟨"foo", "ai", "pg/foo"⟩])]
        c5Fs).2 =
      [Action.symlink "pg/foo" "pg/organized/by-theme/ai/foo"] ∧
    (backendOrganizeByTheme "pg" false [("ai", [⟨"foo", "ai", "pg/foo"⟩])]
        c5Fs).1 = c5Fs := by
  constructor <;> rfl

/-- A filesystem only gained nodes: every occupied path keeps its node. -/
def fsGrows (fs fs2 : Fs) : Prop :=
  ∀ p n, fs p = some n → fs2 p = some n

lemma fsGrows_self (fs : Fs) : fsGrows fs fs := fun _ _ h => h

lemma fsGrows_trans {a b c : Fs} (h1 : fsGrows a b) (h2 : fsGrows b c) :
    fsGrows a c := fun p n h => h2 p n (h1 p n h)

lemma mkdirIfAbsent_grows (fs : Fs) (q : String) :
    fsGrows fs (mkdirIfAbsent fs q) := by
  intro p n h
  unfold mkdirIfAbsent
  split
  · exact h
  · next hq =>
    by_cases hpq : p = q
    · subst hpq
      rw [h] at hq
      simp at hq
    · simp only [hpq, if_false]
      exact h

lemma symlinkTo_grows (fs : Fs) (target source : String) :
    fsGrows fs (symlinkTo fs target source).1 := by
  intro p n h
  unfold symlinkTo
  cases ht : fs target with
  | some m => exact h
  | none =>
    by_cases hpt : p = target
    · subst hpt
      rw [h] at ht
      cases ht
    · simp only [hpt, if_false]
      exact h

/-- Existence of a path survives filesystem growth. -/
lemma pathExists_mono {fs fs2 : Fs} (h : fsGrows fs fs2) (p : String)
    (hp : pathExists fs p = true) : pathExists fs2 p = true := by
  unfold pathExists at hp ⊢
  cases hfp : fs p with
  | none => rw [hfp] at hp; cases hp
  | some nd =>
    rw [h p nd hfp]
    rw [hfp] at hp
    cases nd with
    | realFile => rfl
    | realDir => rfl
    | symlink t =>
      simp only [Option.isSome_iff_exists] at hp ⊢
      obtain ⟨m, hm⟩ := hp
      exact ⟨m, h t m hm⟩

lemma standaloneThemeEntryStep_grows (baseDir : String) (dryRun : Bool)
    (st : Fs × List Action) (e : ThemedEntry) :
    fsGrows st.1 (standaloneThemeEntryStep baseDir dryRun st e).1 := by
  unfold standaloneThemeEntryStep
  split
  · exact fsGrows_self _
  · split
    · exact fsGrows_self _
    · split
      · exact symlinkTo_grows _ _ _
      · exact symlinkTo_grows _ _ _

lemma standaloneThemeDirStep_grows (baseDir : String) (dryRun : Bool)
    (st : Fs × List Action) (theme : String) :
    fsGrows st.1 (standaloneThemeDirStep baseDir dryRun st theme).1 := by
  unfold standaloneThemeDirStep
  split
  · exact mkdirIfAbsent_grows _ _
  · exact fsGrows_self _

lemma standalone_entry_foldl_grows (baseDir : String) (dryRun : Bool) :
    ∀ (entries : List ThemedEntry) (st : Fs × List Action),
    fsGrows st.1
      ((entries.foldl (standaloneThemeEntryStep baseDir dryRun) st).1) := by
  intro entries
  induction entries with
  | nil => intro st; exact fsGrows_self _
  | cons e rest ih =>
    intro st
    rw [List.foldl_cons]
    exact fsGrows_trans (standaloneThemeEntryStep_grows baseDir dryRun st e)
      (ih _)

lemma standalone_dir_foldl_grows (baseDir : String) (dryRun : Bool) :
    ∀ (themes : List String) (st : Fs × List Action),
    fsGrows st.1
      ((themes.foldl (standaloneThemeDirStep baseDir dryRun) st).1) := by
  intro themes
  induction themes with
  | nil => intro st; exact fsGrows_self _
  | cons t rest ih =>
    intro st
    rw [List.foldl_cons]
    exact fsGrows_trans (standaloneThemeDirStep_grows baseDir dryRun st t)
      (ih _)

lemma standalone_entry_foldl_actions_mono (baseDir : String) (dryRun : Bool) :
    ∀ (entries : List ThemedEntry) (st : Fs × List Action) (a : Action),
    a ∈ st.2 →
    a ∈ (entries.foldl (standaloneThemeEntryStep baseDir dryRun) st).2 := by
  intro entries
  induction entries with
  | nil => intro st a h; exact h
  | cons e rest ih =>
    intro st a h
    rw [List.foldl_cons]
    apply ih
    unfold standaloneThemeEntryStep
    split
    · exact List.mem_append_left _ h
    · split
      · exact List.mem_append_left _ h
      · split
        · exact List.mem_append_left _ h
        · exact List.mem_append_left _ h

/-- In the standalone per-entry loop, an entry whose destination already
exists when the loop starts gets a SkipExisting action. -/
lemma standalone_skip_mem (baseDir : String) (dryRun : Bool) :
    ∀ (entries : List ThemedEntry) (st : Fs × List Action) (e : ThemedEntry),
    e ∈ entries →
    pathExists st.1 (themeTargetPath baseDir e.theme e.name) = true →
    Action.skipExisting e.srcPath (themeTargetPath baseDir e.theme e.name) ∈
      (entries.foldl (standaloneThemeEntryStep baseDir dryRun) st).2 := by
  intro entries
  induction entries with
  | nil => intro st e he _; cases he
  | cons i rest ih =>
    intro st e he hex
    rw [List.foldl_cons]
    rcases List.mem_cons.mp he with he1 | he2
    · subst he1
      have hstep : standaloneThemeEntryStep baseDir dryRun st e =
          (st.1, st.2 ++
            [Action.skipExisting e.srcPath
              (themeTargetPath baseDir e.theme e.name)]) := by
        unfold standaloneThemeEntryStep
        rw [if_pos hex]
      rw [hstep]
      apply standalone_entry_foldl_actions_mono
      simp
    · exact ih _ e he2
        (pathExists_mono (standaloneThemeEntryStep_grows baseDir dryRun st i)
          _ hex)

lemma standalone_entry_foldl_no_move (baseDir : String) (dryRun : Bool) :
    ∀ (entries : List ThemedEntry) (st : Fs × List Action) (s d : String),
    Action.move s d ∉ st.2 →
    Action.move s d ∉
      (entries.foldl (standaloneThemeEntryStep baseDir dryRun) st).2 := by
  intro entries
  induction entries with
  | nil => intro st s d h; exact h
  | cons e rest ih =>
    intro st s d h
    rw [List.foldl_cons]
    apply ih
    unfold standaloneThemeEntryStep
    split
    · simp [h]
    · split
      · simp [h]
      · split
        · simp [h]
        · simp [h]

lemma standalone_dir_foldl_no_move (baseDir : String) (dryRun : Bool) :
    ∀ (themes : List String) (st : Fs × List Action) (s d : String),
    Action.move s d ∉ st.2 →
    Action.move s d ∉
      (themes.foldl (standaloneThemeDirStep baseDir dryRun) st).2 := by
  intro themes
  induction themes with
  | nil => intro st s d h; exact h
  | cons t rest ih =>
    intro st s d h
    rw [List.foldl_cons]
    apply ih
    unfold standaloneThemeDirStep
    split
    · simp [h]
    · exact h

/-- A filesystem step that keeps every real (non-symlink) node in place. -/
def preservesReal (fs fs2 : Fs) : Prop :=
  ∀ p n, fs p = some n → n.isSymlinkB = false → fs2 p = some n

lemma preservesReal_self (fs : Fs) : preservesReal fs fs := fun _ _ h _ => h

lemma preservesReal_trans {a b c : Fs} (h1 : preservesReal a b)
    (h2 : preservesReal b c) : preservesReal a c :=
  fun p n h hn => h2 p n (h1 p n h hn) hn

/-- `create_symlink` keeps every real node in place: the destination itself is
refused when real, and no other path is written. -/
lemma createSymlink_preservesReal (fs : Fs) (source target : String) :
    preservesReal fs (createSymlink fs source target).1 := by
  intro p n hp hn
  by_cases hpt : p = target
  · subst hpt
    rw [createSymlink_real_target fs source p n hp hn]
    exact hp
  · unfold createSymlink
    split
    · split
      · simp only [hpt, if_false]
        exact hp
      · exact hp
    · simp only [hpt, if_false]
      exact hp

lemma backendThemeEntryStep_preservesReal (baseDir : String) (dryRun : Bool)
    (theme : String) (st : Fs × List Action) (e : ThemedEntry) :
    preservesReal st.1 (backendThemeEntryStep baseDir dryRun theme st e).1 := by
  unfold backendThemeEntryStep
  split
  · exact preservesReal_self _
  · exact createSymlink_preservesReal _ _ _

lemma backend_entry_foldl_preservesReal (baseDir : String) (dryRun : Bool)
    (theme : String) :
    ∀ (entries : List ThemedEntry) (st : Fs × List Action),
    preservesReal st.1
      ((entries.foldl (backendThemeEntryStep baseDir dryRun theme) st).1) := by
  intro entries
  induction entries with
  | nil => intro st; exact preservesReal_self _
  | cons e rest ih =>
    intro st
    rw [List.foldl_cons]
    exact preservesReal_trans
      (backendThemeEntryStep_preservesReal baseDir dryRun theme st e) (ih _)

lemma backend_group_foldl_preservesReal (baseDir : String) (dryRun : Bool) :
    ∀ (groups : List (String × List ThemedEntry)) (st : Fs × List Action),
    preservesReal st.1
      ((groups.foldl (backendThemeGroupStep baseDir dryRun) st).1) := by
  intro groups
  induction groups with
  | nil => intro st; exact preservesReal_self _
  | cons g rest ih =>
    intro st
    rw [List.foldl_cons]
    exact preservesReal_trans
      (backend_entry_foldl_preservesReal baseDir dryRun g.1 g.2 st) (ih _)

lemma backend_entry_foldl_actions (baseDir : String) (dryRun : Bool)
    (theme : String) :
    ∀ (entries : List ThemedEntry) (st : Fs × List Action),
    (∀ a ∈ st.2, ∃ s d, a = Action.symlink s d) →
    ∀ a ∈ (entries.foldl (backendThemeEntryStep baseDir dryRun theme) st).2,
      ∃ s d, a = Action.symlink s d := by
  intro entries
  induction entries with
  | nil => intro st h; exact h
  | cons e rest ih =>
    intro st h
    rw [List.foldl_cons]
    apply ih
    intro a ha
    have hstep : (backendThemeEntryStep baseDir dryRun theme st e).2 =
        st.2 ++ [Action.symlink e.srcPath
          (themeTargetPath baseDir theme e.name)] := by
      unfold backendThemeEntryStep
      split <;> rfl
    rw [hstep] at ha
    rcases List.mem_append.mp ha with ha1 | ha2
    · exact h a ha1
    · rcases List.mem_singleton.mp ha2 with rfl
      exact ⟨_, _, rfl⟩

lemma backend_group_foldl_actions (baseDir : String) (dryRun : Bool) :
    ∀ (groups : List (String × List ThemedEntry)) (st : Fs × List Action),
    (∀ a ∈ st.2, ∃ s d, a = Action.symlink s d) →
    ∀ a ∈ (groups.foldl (backendThemeGroupStep baseDir dryRun) st).2,
      ∃ s d, a = Action.symlink s d := by
  intro groups
  induction groups with
  | nil => intro st h; exact h
  | cons g rest ih =>
    intro st h
    rw [List.foldl_cons]
    exact ih _ (backend_entry_foldl_actions baseDir dryRun g.1 g.2 st h)

/-- C5 amended: the standalone theme planner emits, for each entry, either a
Symlink action (theme mode never emits a Move) or a SkipExisting action when
the computed destination already exists, and its execution never removes or
replaces an existing node, so the source and an already-existing destination
are left unchanged.  The backend theme organizer likewise never emits a Move
and never touches a real (non-symlink) node, but its action list records a
create-symlink action for every entry, even one whose destination already
exists, instead of a SkipExisting action. -/
theorem c5_amended_theme_mode_actions :
    (∀ (baseDir : String) (dryRun : Bool) (themes : List String)
        (entries : List ThemedEntry) (fs : Fs) (s d : String),
      Action.move s d ∉
        (standaloneOrganizeByTheme baseDir dryRun themes entries fs).2) ∧
    (∀ (baseDir : String) (dryRun : Bool) (themes : List String)
        (entries : List ThemedEntry) (fs : Fs) (e : ThemedEntry),
      e ∈ entries →
      pathExists fs (themeTargetPath baseDir e.theme e.name) = true →
      Action.skipExisting e.srcPath (themeTargetPath baseDir e.theme e.name) ∈
        (standaloneOrganizeByTheme baseDir dryRun themes entries fs).2) ∧
    (∀ (baseDir : String) (dryRun : Bool) (themes : List String)
        (entries : List ThemedEntry) (fs : Fs) (p : String) (n : Node),
      fs p = some n →
      (standaloneOrganizeByTheme baseDir dryRun themes entries fs).1 p =
        some n) ∧
    (∀ (baseDir : String) (dryRun : Bool)
        (groups : List (String × List ThemedEntry)) (fs : Fs) (a : Action),
      a ∈ (backendOrganizeByTheme baseDir dryRun groups fs).2 →
      ∃ s d, a = Action.symlink s d) ∧
    (∀ (baseDir : String) (dryRun : Bool)
        (groups : List (String × List ThemedEntry)) (fs : Fs) (p : String)
        (n : Node),
      fs p = some n → n.isSymlinkB = false →
      (backendOrganizeByTheme baseDir dryRun groups fs).1 p = some n) := by
  have hst0_grows : ∀ (baseDir : String) (dryRun : Bool) (fs : Fs),
      fsGrows fs (if dryRun then ((fs, []) : Fs × List Action)
        else (mkdirIfAbsent fs (baseDir ++ "/organized/by-theme"),
              [Action.makeDir (baseDir ++ "/organized/by-theme")])).1 := by
    intro baseDir dryRun fs
    split
    · exact fsGrows_self _
    · exact mkdirIfAbsent_grows _ _
  refine ⟨?_, ?_, ?_, ?_, ?_⟩
  · intro baseDir dryRun themes entries fs s d
    unfold standaloneOrganizeByTheme
    apply standalone_entry_foldl_no_move
    apply standalone_dir_foldl_no_move
    split <;> simp
  · intro baseDir dryRun themes entries fs e he hex
    unfold standaloneOrganizeByTheme
    apply standalone_skip_mem baseDir dryRun entries _ e he
    exact pathExists_mono
      (fsGrows_trans (hst0_grows baseDir dryRun fs)
        (standalone_dir_foldl_grows baseDir dryRun themes _)) _ hex
  · intro baseDir dryRun themes entries fs p n hp
    unfold standaloneOrganizeByTheme
    exact standalone_entry_foldl_grows baseDir dryRun entries _ p n
      (standalone_dir_foldl_grows baseDir dryRun themes _ p n
        (hst0_grows baseDir dryRun fs p n hp))
  · intro baseDir dryRun groups fs a ha
    exact backend_group_foldl_actions baseDir dryRun groups (fs, [])
      (by intro a ha; cases ha) a ha
  · intro baseDir dryRun groups fs p n hp hn
    exact backend_group_foldl_preservesReal baseDir dryRun groups (fs, [])
      p n hp hn

/-- Witness for C5's amended theorem at the concrete scenario filesystem. -/
theorem c5_amended_witness :
    Action.skipExisting "pg/foo" (themeTargetPath "pg" "ai" "foo") ∈
      (standaloneOrganizeByTheme "pg" false ["ai"]
        [⟨"foo", "ai", "pg/foo"⟩] c5Fs).2 ∧
    (standaloneOrganizeByTheme "pg" false ["ai"]
        [⟨"foo", "ai", "pg/foo"⟩] c5Fs).1 "pg/organized/by-theme/ai/foo" =
      some Node.realDir :=
  ⟨c5_amended_theme_mode_actions.2.1 "pg" false ["ai"]
     [⟨"foo", "ai", "pg/foo"⟩] c5Fs ⟨"foo", "ai", "pg/foo"⟩
     (by simp) (by decide),
   c5_amended_theme_mode_actions.2.2.1 "pg" false ["ai"]
     [⟨"foo", "ai", "pg/foo"⟩] c5Fs "pg/organized/by-theme/ai/foo"
     Node.realDir (by decide)⟩

/-- Witness for C6's amended theorem at concrete loader inputs. -/
theorem c6_amended_witness :
    (standaloneLoadConfig .corrupt).2 = false ∧
    backendLoadConfig [".git"] .corrupt = .error .jsonDecodeError :=
  ⟨c6_amended_parse_failure_handling.1 .corrupt,
   c6_amended_parse_failure_handling.2.2.2 [".git"]⟩

/-- A concrete item list for the C7 witness: one kept entry, one hidden entry,
one excluded directory and one stat failure. -/
def c7Items : List FsItem :=
  [⟨"proj", true, some ⟨"pg/proj", 0, 0, 1024⟩⟩,
   ⟨".hidden", false, some ⟨"pg/.hidden", 0, 0, 1⟩⟩,
   ⟨"node_modules", true, some ⟨"pg/node_modules", 0, 0, 1⟩⟩,
   ⟨"broken", false, none⟩]

/-- Witness for C7 at a concrete configuration and item list. -/
theorem c7_witness :
    (analyzeAccessPatterns ⟨["node_modules"], ⟨30, 180, 365⟩⟩ 0
        (.dir c7Items)).current.length +
      (analyzeAccessPatterns ⟨["node_modules"], ⟨30, 180, 365⟩⟩ 0
        (.dir c7Items)).recent.length +
      (analyzeAccessPatterns ⟨["node_modules"], ⟨30, 180, 365⟩⟩ 0
        (.dir c7Items)).old.length +
      (analyzeAccessPatterns ⟨["node_modules"], ⟨30, 180, 365⟩⟩ 0
        (.dir c7Items)).archive.length =
      (c7Items.filter (keepItem ⟨["node_modules"], ⟨30, 180, 365⟩⟩)).length :=
  (c7_bucket_partition_invariant ⟨["node_modules"], ⟨30, 180, 365⟩⟩ 0
    c7Items).1

/-- Witness for C9's amended theorem at concrete estimator inputs. -/
theorem c9_amended_witness :
    1024 * 1024 ≤ estimateDirectorySize "proj" (.failedAfter []) ∧
    estimateDirectorySize "proj" .outerError = 10 * 1024 * 1024 :=
  ⟨c9_amended_estimate_at_least_1mb.1 "proj" (.failedAfter []),
   c9_amended_estimate_at_least_1mb.2.1 "proj"⟩

end Playground
